import Mathlib

/-!
Shallow embedding of the Safety Equipment Tracker (final.py): the entity
store (Employee, Equipment, Issue), the mutating request handlers
(add_employee, remove_employee, add_equipment, assign_equipment,
raise_issue, resolve_issue, delete_issue) and the near-expiry
classification used by the dashboards.  Dates are modelled as integer day
ordinals, timestamps as naturals; the database session is a `Store` value
threaded explicitly; a handler that 404s returns `none`, form-validation
failures return an explicit error.
-/

/-- Employee row: numeric primary key, unique human-assigned code, display name. -/
structure Employee where
  id : Nat
  employee_code : String
  name : String
  deriving DecidableEq

/-- Equipment row: expiry date (day ordinal), optional owning employee,
retirement flag and timestamp. -/
structure Equipment where
  id : Nat
  name : String
  expiry_date : Int
  employee_id : Option Nat
  is_retired : Bool
  retired_on : Option Nat
  deriving DecidableEq

/-- Issue row: required equipment reference, description, raised-on timestamp,
optional raising employee, resolution flag and timestamp. -/
structure Issue where
  id : Nat
  equipment_id : Nat
  description : String
  raised_on : Nat
  raised_by_employee_id : Option Nat
  is_resolved : Bool
  resolved_on : Option Nat
  deriving DecidableEq

/-- The entity store: the three tables. -/
structure Store where
  employees : List Employee
  equipments : List Equipment
  issues : List Issue
  deriving DecidableEq

/-- Primary-key lookup on the employee table (`Employee.query.get`). -/
def findEmployee (s : Store) (empId : Nat) : Option Employee :=
  s.employees.find? (fun emp => emp.id == empId)

/-- Primary-key lookup on the equipment table (`Equipment.query.get`). -/
def findEquipment (s : Store) (eqId : Nat) : Option Equipment :=
  s.equipments.find? (fun e => e.id == eqId)

/-- Primary-key lookup on the issue table (`Issue.query.get`). -/
def findIssue (s : Store) (issueId : Nat) : Option Issue :=
  s.issues.find? (fun i => i.id == issueId)

/-- Form-validation failures surfaced as flash notices (never a crash). -/
inductive FormError where
  | missingField : FormError
  | duplicateCode : FormError
  deriving DecidableEq

/-- Handler `add_employee` (final.py lines 539-554): rejects a blank name or
code, then rejects a duplicate employee_code before inserting. -/
def add_employee (s : Store) (nm code : String) (newId : Nat) : Except FormError Store :=
  if nm = "" ∨ code = "" then Except.error FormError.missingField
  else if s.employees.any (fun emp => emp.employee_code == code) then
    Except.error FormError.duplicateCode
  else Except.ok { s with employees :=
    s.employees ++ [{ id := newId, employee_code := code, name := nm }] }

/-- Handler `remove_employee` (final.py lines 566-576): 404 on a missing id,
otherwise unassigns every equipment owned by the employee and deletes the
row; the ORM nulls the raised-by reference on the employee's issues. -/
def remove_employee (s : Store) (empId : Nat) : Option Store :=
  match findEmployee s empId with
  | none => none
  | some _ =>
    some { s with
      employees := s.employees.filter (fun emp => emp.id != empId),
      equipments := s.equipments.map (fun e =>
        if e.employee_id == some empId then { e with employee_id := none } else e),
      issues := s.issues.map (fun i =>
        if i.raised_by_employee_id == some empId then
          { i with raised_by_employee_id := none } else i) }

/-- Handler `add_equipment` (final.py lines 616-629): rejects blank input,
otherwise inserts an unassigned, non-retired item. -/
def add_equipment (s : Store) (nm : String) (expiry : Int) (newId : Nat) :
    Except FormError Store :=
  if nm = "" then Except.error FormError.missingField
  else Except.ok { s with equipments := s.equipments ++
    [{ id := newId, name := nm, expiry_date := expiry, employee_id := none,
       is_retired := false, retired_on := none }] }

/-- Outcome of the assign handler: 404, rejected because the item is retired
(flash and redirect, store untouched), or assigned. -/
inductive AssignOutcome where
  | notFound : AssignOutcome
  | rejectedRetired : Store → AssignOutcome
  | assigned : Store → AssignOutcome
  deriving DecidableEq

/-- Handler `assign_equipment` (final.py lines 641-654): 404 on a missing id,
refuses a retired item, otherwise writes the posted employee_id onto the
item.  The handler performs no existence check on the posted employee_id. -/
def assign_equipment (s : Store) (eqId empId : Nat) : AssignOutcome :=
  match findEquipment s eqId with
  | none => AssignOutcome.notFound
  | some e =>
    if e.is_retired then AssignOutcome.rejectedRetired s
    else AssignOutcome.assigned { s with equipments := s.equipments.map (fun e2 =>
      if e2.id == eqId then { e2 with employee_id := some empId } else e2) }

/-- Handler `raise_issue` (final.py lines 731-754): 404 on a missing id,
refuses a retired item and a blank description (store unchanged),
otherwise inserts an open issue stamped with the current time. -/
def raise_issue (s : Store) (eqId : Nat) (desc : String) (raisedBy : Option Nat)
    (now newId : Nat) : Option Store :=
  match findEquipment s eqId with
  | none => none
  | some e =>
    if e.is_retired then some s
    else if desc = "" then some s
    else some { s with issues := s.issues ++
      [{ id := newId, equipment_id := eqId, description := desc, raised_on := now,
         raised_by_employee_id := raisedBy, is_resolved := false, resolved_on := none }] }

/-- Handler `resolve_issue` (final.py lines 767-795): 404 on a missing id,
otherwise toggles the issue's resolution flag; when the toggle lands on
resolved it unassigns and retires the referenced equipment, when it lands
on open it reactivates the equipment (clearing the retired stamp). -/
def resolve_issue (s : Store) (issueId now : Nat) : Option Store :=
  match findIssue s issueId with
  | none => none
  | some issue =>
    let newResolved := !issue.is_resolved
    let issueUpd : Issue := { issue with
      is_resolved := newResolved,
      resolved_on := if newResolved then some now else none }
    let issuesUpd := s.issues.map (fun i => if i.id == issueId then issueUpd else i)
    let equipsUpd :=
      if newResolved then
        s.equipments.map (fun e =>
          if e.id == issue.equipment_id then
            { e with employee_id := none, is_retired := true, retired_on := some now }
          else e)
      else
        s.equipments.map (fun e =>
          if e.id == issue.equipment_id then
            { e with is_retired := false, retired_on := none }
          else e)
    some { s with issues := issuesUpd, equipments := equipsUpd }

/-- Handler `delete_issue` (final.py lines 798-805): 404 on a missing id,
otherwise deletes the row unconditionally. -/
def delete_issue (s : Store) (issueId : Nat) : Option Store :=
  match findIssue s issueId with
  | none => none
  | some _ => some { s with issues := s.issues.filter (fun i => i.id != issueId) }

/-- State of the store after an add-employee request (a rejected form leaves
the store unchanged). -/
def addEmployeeStep (s : Store) (nm code : String) (newId : Nat) : Store :=
  match add_employee s nm code newId with
  | Except.error _ => s
  | Except.ok s2 => s2

/-- State of the store after a remove-employee request (404 leaves it unchanged). -/
def removeEmployeeStep (s : Store) (empId : Nat) : Store :=
  (remove_employee s empId).getD s

/-- State of the store after an add-equipment request. -/
def addEquipmentStep (s : Store) (nm : String) (expiry : Int) (newId : Nat) : Store :=
  match add_equipment s nm expiry newId with
  | Except.error _ => s
  | Except.ok s2 => s2

/-- State of the store after an assign-equipment request. -/
def assignStep (s : Store) (eqId empId : Nat) : Store :=
  match assign_equipment s eqId empId with
  | AssignOutcome.notFound => s
  | AssignOutcome.rejectedRetired s2 => s2
  | AssignOutcome.assigned s2 => s2

/-- Whether an assign-equipment request actually writes an assignment. -/
def assignSucceeds (s : Store) (eqId empId : Nat) : Bool :=
  match assign_equipment s eqId empId with
  | AssignOutcome.assigned _ => true
  | _ => false

/-- State of the store after a raise-issue request. -/
def raiseIssueStep (s : Store) (eqId : Nat) (desc : String) (raisedBy : Option Nat)
    (now newId : Nat) : Store :=
  (raise_issue s eqId desc raisedBy now newId).getD s

/-- State of the store after a resolve-toggle request. -/
def resolveStep (s : Store) (issueId now : Nat) : Store :=
  (resolve_issue s issueId now).getD s

/-- State of the store after a delete-issue request. -/
def deleteIssueStep (s : Store) (issueId : Nat) : Store :=
  (delete_issue s issueId).getD s

/-- Display classification of an active item on the dashboards. -/
inductive ExpiryStatus where
  | NearExpiry : ExpiryStatus
  | Ok : ExpiryStatus
  deriving DecidableEq

/-- Near-expiry classification (final.py lines 380-382 and 434-440): an item
is flagged exactly when `expiry_date <= today + threshold` days. -/
def classify (today threshold expiry : Int) : ExpiryStatus :=
  if expiry ≤ today + threshold then ExpiryStatus.NearExpiry else ExpiryStatus.Ok

/-- Retirement-stamp invariant of one item: the flag agrees with the timestamp. -/
def equipInv (e : Equipment) : Prop := e.is_retired = e.retired_on.isSome

instance (e : Equipment) : Decidable (equipInv e) :=
  decidable_of_iff (e.is_retired = e.retired_on.isSome) Iff.rfl

/-- Retirement-stamp invariant over the whole store. -/
def storeInv (s : Store) : Prop := ∀ e ∈ s.equipments, equipInv e

instance (s : Store) : Decidable (storeInv s) :=
  decidable_of_iff (∀ e ∈ s.equipments, equipInv e) Iff.rfl

/-- A retired item carries no assignment. -/
def retiredUnassigned (e : Equipment) : Prop :=
  e.is_retired = true → e.employee_id = none

instance (e : Equipment) : Decidable (retiredUnassigned e) :=
  decidable_of_iff (e.is_retired = true → e.employee_id = none) Iff.rfl

/-- Retired-implies-unassigned invariant over the whole store. -/
def retInv (s : Store) : Prop := ∀ e ∈ s.equipments, retiredUnassigned e

instance (s : Store) : Decidable (retInv s) :=
  decidable_of_iff (∀ e ∈ s.equipments, retiredUnassigned e) Iff.rfl

/-- Primary-key uniqueness on the equipment table, supplied by the datastore. -/
def equipIdsNodup (s : Store) : Prop := (s.equipments.map Equipment.id).Nodup

instance (s : Store) : Decidable (equipIdsNodup s) :=
  decidable_of_iff ((s.equipments.map Equipment.id).Nodup) Iff.rfl

/-- A seeded employee used to instantiate the theorems. -/
def empA : Employee := { id := 1, employee_code := "E1001", name := "Chinmoy Das" }

/-- A seeded active item assigned to `empA`. -/
def eqA : Equipment :=
  { id := 1, name := "Safety Helmet", expiry_date := 10, employee_id := some 1,
    is_retired := false, retired_on := none }

/-- A seeded open issue against `eqA`. -/
def issueA : Issue :=
  { id := 1, equipment_id := 1, description := "strap broken", raised_on := 5,
    raised_by_employee_id := some 1, is_resolved := false, resolved_on := none }

/-- A small concrete store used to instantiate the theorems. -/
def demoStore : Store := { employees := [empA], equipments := [eqA], issues := [issueA] }

/-- A resolved issue row used to instantiate the reopen theorem. -/
def issueR : Issue :=
  { id := 1, equipment_id := 1, description := "strap broken", raised_on := 5,
    raised_by_employee_id := some 1, is_resolved := true, resolved_on := some 100 }

/-- A seeded store holding the resolved issue `issueR` against a retired item. -/
def demoStoreR : Store :=
  { employees := [empA],
    equipments := [{ id := 1, name := "Safety Helmet", expiry_date := 10,
                     employee_id := none, is_retired := true, retired_on := some 100 }],
    issues := [issueR] }

/-- A store with one active unassigned item and no employees at all. -/
def cxStore : Store :=
  { employees := [],
    equipments := [{ id := 1, name := "Harness", expiry_date := 50, employee_id := none,
                     is_retired := false, retired_on := none }],
    issues := [] }

theorem find_map_update {α : Type} (p : α → Bool) (g : α → α) (l : List α) (a : α)
    (h : l.find? p = some a)
    (hg1 : ∀ x, p x = true → p (g x) = true)
    (hg2 : ∀ x, p x = false → g x = x) :
    (l.map g).find? p = some (g a) := by
  induction l with
  | nil => simp at h
  | cons b t ih =>
    cases hpb : p b with
    | true =>
      rw [List.find?_cons_of_pos _ hpb] at h
      injection h with h
      subst h
      rw [List.map_cons, List.find?_cons_of_pos _ (hg1 b hpb)]
    | false =>
      rw [List.find?_cons_of_neg] at h
      · rw [List.map_cons, List.find?_cons_of_neg]
        · exact ih h
        · rw [hg2 b hpb]
          simp [hpb]
      · simp [hpb]

theorem resolve_issue_open_eq (s : Store) (issueId now : Nat) (issue : Issue)
    (hi : findIssue s issueId = some issue)
    (hopen : issue.is_resolved = false) :
    resolve_issue s issueId now = some
      { s with
        issues := s.issues.map (fun i => if i.id == issueId then
          { issue with is_resolved := true, resolved_on := some now } else i),
        equipments := s.equipments.map (fun e => if e.id == issue.equipment_id then
          { e with employee_id := none, is_retired := true, retired_on := some now }
          else e) } := by
  simp only [resolve_issue, hi, hopen]
  rfl

theorem resolve_issue_resolved_eq (s : Store) (issueId now : Nat) (issue : Issue)
    (hi : findIssue s issueId = some issue)
    (hres : issue.is_resolved = true) :
    resolve_issue s issueId now = some
      { s with
        issues := s.issues.map (fun i => if i.id == issueId then
          { issue with is_resolved := false, resolved_on := none } else i),
        equipments := s.equipments.map (fun e => if e.id == issue.equipment_id then
          { e with is_retired := false, retired_on := none }
          else e) } := by
  simp only [resolve_issue, hi, hres]
  rfl

/-- C1: resolving an open Issue marks it resolved with resolved_on set to the
current time and, as a side effect, always leaves the referenced Equipment
item retired with retired_on stamped and employee_id cleared, regardless of
its prior assignment. -/
theorem resolve_open_retires_equipment (s : Store) (issueId now : Nat) (issue : Issue)
    (hi : findIssue s issueId = some issue)
    (hopen : issue.is_resolved = false) :
    ∃ s2, resolve_issue s issueId now = some s2 ∧
      findIssue s2 issueId =
        some { issue with is_resolved := true, resolved_on := some now } ∧
      (∀ e ∈ s2.equipments, e.id = issue.equipment_id →
        e.is_retired = true ∧ e.retired_on = some now ∧ e.employee_id = none) ∧
      (∀ e ∈ s.equipments, e.id = issue.equipment_id →
        { e with employee_id := none, is_retired := true, retired_on := some now }
          ∈ s2.equipments) := by
  have hi2 : s.issues.find? (fun i => i.id == issueId) = some issue := hi
  have hbeq : (issue.id == issueId) = true := by simpa using List.find?_some hi2
  refine ⟨_, resolve_issue_open_eq s issueId now issue hi hopen, ?_, ?_, ?_⟩
  · unfold findIssue at hi ⊢
    have := find_map_update (fun i => i.id == issueId)
      (fun i => if i.id == issueId then
        { issue with is_resolved := true, resolved_on := some now } else i)
      s.issues issue hi
      (fun x hx => by simp [hx, hbeq])
      (fun x hx => by simp [hx])
    simpa [hbeq] using this
  · intro e he hid
    simp only [List.mem_map] at he
    obtain ⟨x, hx, rfl⟩ := he
    by_cases hxk : (x.id == issue.equipment_id) = true
    · simp [hxk]
    · simp only [if_neg hxk] at hid ⊢
      exact absurd (by simp [hid]) hxk
  · intro e he hid
    have := List.mem_map_of_mem
      (f := fun e => if e.id == issue.equipment_id then
        { e with employee_id := none, is_retired := true, retired_on := some now }
        else e) he
    simpa [hid] using this

/-- Witness for C1 at the seeded store. -/
theorem resolve_open_retires_equipment_witness :
    findIssue demoStore 1 = some issueA ∧ issueA.is_resolved = false ∧
    (∃ s2, resolve_issue demoStore 1 100 = some s2 ∧
      findIssue s2 1 =
        some { issueA with is_resolved := true, resolved_on := some 100 } ∧
      (∀ e ∈ s2.equipments, e.id = issueA.equipment_id →
        e.is_retired = true ∧ e.retired_on = some 100 ∧ e.employee_id = none) ∧
      (∀ e ∈ demoStore.equipments, e.id = issueA.equipment_id →
        { e with employee_id := none, is_retired := true, retired_on := some 100 }
          ∈ s2.equipments)) :=
  ⟨by decide, by decide,
    resolve_open_retires_equipment demoStore 1 100 issueA (by decide) (by decide)⟩

/-- C2: toggling a resolved Issue again clears resolved_on and unconditionally
returns the referenced Equipment item to active (is_retired false, retired_on
cleared), with no hypothesis about other open issues against the same item
and none about its expiry date. -/
theorem reopen_reactivates_equipment (s : Store) (issueId now : Nat) (issue : Issue)
    (hi : findIssue s issueId = some issue)
    (hres : issue.is_resolved = true) :
    ∃ s2, resolve_issue s issueId now = some s2 ∧
      findIssue s2 issueId =
        some { issue with is_resolved := false, resolved_on := none } ∧
      (∀ e ∈ s2.equipments, e.id = issue.equipment_id →
        e.is_retired = false ∧ e.retired_on = none) ∧
      (∀ e ∈ s.equipments, e.id = issue.equipment_id →
        { e with is_retired := false, retired_on := none } ∈ s2.equipments) := by
  have hi2 : s.issues.find? (fun i => i.id == issueId) = some issue := hi
  have hbeq : (issue.id == issueId) = true := by simpa using List.find?_some hi2
  refine ⟨_, resolve_issue_resolved_eq s issueId now issue hi hres, ?_, ?_, ?_⟩
  · unfold findIssue at hi ⊢
    have := find_map_update (fun i => i.id == issueId)
      (fun i => if i.id == issueId then
        { issue with is_resolved := false, resolved_on := none } else i)
      s.issues issue hi
      (fun x hx => by simp [hx, hbeq])
      (fun x hx => by simp [hx])
    simpa [hbeq] using this
  · intro e he hid
    simp only [List.mem_map] at he
    obtain ⟨x, hx, rfl⟩ := he
    by_cases hxk : (x.id == issue.equipment_id) = true
    · simp [hxk]
    · simp only [if_neg hxk] at hid ⊢
      exact absurd (by simp [hid]) hxk
  · intro e he hid
    have := List.mem_map_of_mem
      (f := fun e => if e.id == issue.equipment_id then
        { e with is_retired := false, retired_on := none } else e) he
    simpa [hid] using this

/-- Witness for C2 at a seeded store with a resolved issue. -/
theorem reopen_reactivates_equipment_witness :
    findIssue demoStoreR 1 = some issueR ∧ issueR.is_resolved = true ∧
    (∃ s2, resolve_issue demoStoreR 1 200 = some s2 ∧
      findIssue s2 1 =
        some { issueR with is_resolved := false, resolved_on := none } ∧
      (∀ e ∈ s2.equipments, e.id = issueR.equipment_id →
        e.is_retired = false ∧ e.retired_on = none) ∧
      (∀ e ∈ demoStoreR.equipments, e.id = issueR.equipment_id →
        { e with is_retired := false, retired_on := none } ∈ s2.equipments)) :=
  ⟨by decide, by decide,
    reopen_reactivates_equipment demoStoreR 1 200 issueR (by decide) (by decide)⟩

/-- C4: deleting an existing Issue removes that record, keeps every other
issue, and leaves the equipment and employee tables untouched — in
particular an equipment retirement caused by resolving the issue stays. -/
theorem delete_issue_frame (s : Store) (issueId : Nat) (issue : Issue)
    (hi : findIssue s issueId = some issue) :
    ∃ s2, delete_issue s issueId = some s2 ∧
      (∀ i ∈ s2.issues, i.id ≠ issueId) ∧
      (∀ i ∈ s.issues, i.id ≠ issueId → i ∈ s2.issues) ∧
      s2.equipments = s.equipments ∧ s2.employees = s.employees := by
  have hd : delete_issue s issueId =
      some { s with issues := s.issues.filter (fun i => i.id != issueId) } := by
    simp only [delete_issue, hi]
  refine ⟨_, hd, ?_, ?_, rfl, rfl⟩
  · intro i hm
    have := List.of_mem_filter hm
    simpa using this
  · intro i hm hne
    exact List.mem_filter.2 ⟨hm, by simpa using hne⟩

/-- Witness for C4 at the seeded store. -/
theorem delete_issue_frame_witness :
    findIssue demoStore 1 = some issueA ∧
    (∃ s2, delete_issue demoStore 1 = some s2 ∧
      (∀ i ∈ s2.issues, i.id ≠ 1) ∧
      (∀ i ∈ demoStore.issues, i.id ≠ 1 → i ∈ s2.issues) ∧
      s2.equipments = demoStore.equipments ∧ s2.employees = demoStore.employees) :=
  ⟨by decide, delete_issue_frame demoStore 1 issueA (by decide)⟩

/-- C6: near-expiry classification is a pure function of today, the threshold
and the expiry date: an item is NearExpiry exactly when
`expiry <= today + threshold`; the boundary day classifies NearExpiry and one
day later classifies Ok. -/
theorem near_expiry_boundary (T D expiry : Int) :
    (classify T D expiry = ExpiryStatus.NearExpiry ↔ expiry ≤ T + D) ∧
    classify T D (T + D) = ExpiryStatus.NearExpiry ∧
    classify T D (T + D + 1) = ExpiryStatus.Ok := by
  unfold classify
  refine ⟨?_, if_pos le_rfl, if_neg (by omega)⟩
  by_cases h : expiry ≤ T + D <;> simp [h]

/-- C7: submitting a new employee whose code equals an existing employee's
code is rejected as a duplicate-code validation error and the store — in
particular the employee table's row count — is unchanged. -/
theorem duplicate_employee_code_rejected (s : Store) (nm code : String) (newId : Nat)
    (emp : Employee)
    (hnm : nm ≠ "") (hcd : code ≠ "")
    (hmem : emp ∈ s.employees) (hcode : emp.employee_code = code) :
    add_employee s nm code newId = Except.error FormError.duplicateCode ∧
    addEmployeeStep s nm code newId = s := by
  have hdup : s.employees.any (fun e2 => e2.employee_code == code) = true :=
    List.any_eq_true.2 ⟨emp, hmem, by simp [hcode]⟩
  have h1 : add_employee s nm code newId = Except.error FormError.duplicateCode := by
    unfold add_employee
    rw [if_neg (by simp [hnm, hcd]), if_pos hdup]
  refine ⟨h1, ?_⟩
  unfold addEmployeeStep
  rw [h1]

/-- Witness for C7 at the seeded store. -/
theorem duplicate_employee_code_rejected_witness :
    ("Dana" : String) ≠ "" ∧ ("E1001" : String) ≠ "" ∧
    empA ∈ demoStore.employees ∧ empA.employee_code = "E1001" ∧
    (add_employee demoStore "Dana" "E1001" 7 = Except.error FormError.duplicateCode ∧
     addEmployeeStep demoStore "Dana" "E1001" 7 = demoStore) :=
  ⟨by decide, by decide, by decide, by decide,
    duplicate_employee_code_rejected demoStore "Dana" "E1001" 7 empA (by decide)
      (by decide) (by decide) (by decide)⟩

/-- C5 counterexample: in a store with no employees at all, assigning
employee id 42 to the active item succeeds and stores a reference to an
employee that does not exist, refuting the claim that a successful
assignment always references an existing employee. -/
theorem assign_missing_employee_cex :
    assignSucceeds cxStore 1 42 = true ∧
    (∀ emp ∈ (assignStep cxStore 1 42).employees, emp.id ≠ 42) ∧
    (∃ e ∈ (assignStep cxStore 1 42).equipments, e.employee_id = some 42) := by
  decide

/-- C5 amended: the assign handler 404s on a missing item, rejects a retired
item leaving the store untouched, and on an existing active item writes the
posted employee id onto it without checking that the employee exists. -/
theorem assign_requires_active_equipment (s : Store) (eqId empId : Nat) :
    (findEquipment s eqId = none → assign_equipment s eqId empId = AssignOutcome.notFound) ∧
    (∀ e, findEquipment s eqId = some e → e.is_retired = true →
      assign_equipment s eqId empId = AssignOutcome.rejectedRetired s) ∧
    (∀ e, findEquipment s eqId = some e → e.is_retired = false →
      ∃ s2, assign_equipment s eqId empId = AssignOutcome.assigned s2 ∧
        s2.employees = s.employees ∧ s2.issues = s.issues ∧
        (∀ e2 ∈ s2.equipments, e2.id = eqId → e2.employee_id = some empId)) := by
  refine ⟨?_, ?_, ?_⟩
  · intro h
    unfold assign_equipment
    rw [h]
  · intro e he hr
    unfold assign_equipment
    rw [he]
    simp [hr]
  · intro e he hr
    unfold assign_equipment
    rw [he]
    simp only [hr, Bool.false_eq_true, if_false]
    refine ⟨_, rfl, rfl, rfl, ?_⟩
    intro e2 he2 hid
    simp only [List.mem_map] at he2
    obtain ⟨x, hx, rfl⟩ := he2
    by_cases hxk : (x.id == eqId) = true
    · simp [hxk]
    · simp only [if_neg hxk] at hid ⊢
      exact absurd (by simp [hid]) hxk

/-- Witness for the amended C5, exercising all three branches concretely. -/
theorem assign_requires_active_equipment_witness :
    (findEquipment cxStore 9 = none →
      assign_equipment cxStore 9 7 = AssignOutcome.notFound) ∧
    (∀ e, findEquipment demoStoreR 1 = some e → e.is_retired = true →
      assign_equipment demoStoreR 1 7 = AssignOutcome.rejectedRetired demoStoreR) ∧
    (∀ e, findEquipment demoStore 1 = some e → e.is_retired = false →
      ∃ s2, assign_equipment demoStore 1 7 = AssignOutcome.assigned s2 ∧
        s2.employees = demoStore.employees ∧ s2.issues = demoStore.issues ∧
        (∀ e2 ∈ s2.equipments, e2.id = 1 → e2.employee_id = some 7)) :=
  ⟨(assign_requires_active_equipment cxStore 9 7).1,
   (assign_requires_active_equipment demoStoreR 1 7).2.1,
   (assign_requires_active_equipment demoStore 1 7).2.2⟩

/-- C8: removing an existing employee deletes that employee row and leaves
every equipment item assigned to them present (the table keeps its length),
still active, and unassigned; no equipment row keeps a reference to the
removed employee. -/
theorem remove_employee_unassigns_equipment (s : Store) (empId : Nat)
    (emp : Employee) (e : Equipment)
    (hinv : retInv s)
    (hemp : findEmployee s empId = some emp)
    (he : e ∈ s.equipments) (hass : e.employee_id = some empId) :
    ∃ s2, remove_employee s empId = some s2 ∧
      (∀ emp2 ∈ s2.employees, emp2.id ≠ empId) ∧
      e.is_retired = false ∧
      { e with employee_id := none } ∈ s2.equipments ∧
      s2.equipments.length = s.equipments.length ∧
      (∀ e2 ∈ s2.equipments, e2.employee_id ≠ some empId) := by
  have hact : e.is_retired = false := by
    cases hre : e.is_retired
    · rfl
    · have h2 := hinv e he hre
      rw [hass] at h2
      exact absurd h2 (by simp)
  have hrm : remove_employee s empId = some
      { s with
        employees := s.employees.filter (fun emp2 => emp2.id != empId),
        equipments := s.equipments.map (fun e2 =>
          if e2.employee_id == some empId then { e2 with employee_id := none } else e2),
        issues := s.issues.map (fun i =>
          if i.raised_by_employee_id == some empId then
            { i with raised_by_employee_id := none } else i) } := by
    simp only [remove_employee, hemp]
  refine ⟨_, hrm, ?_, hact, ?_, by simp, ?_⟩
  · intro emp2 hm
    have := List.of_mem_filter hm
    simpa using this
  · have := List.mem_map_of_mem
      (f := fun e2 => if e2.employee_id == some empId then
        { e2 with employee_id := none } else e2) he
    simpa [hass] using this
  · intro e2 hm
    simp only [List.mem_map] at hm
    obtain ⟨x, hx, rfl⟩ := hm
    by_cases hxk : (x.employee_id == some empId) = true
    · simp [hxk]
    · simp only [if_neg hxk]
      intro hcon
      exact hxk (by simp [hcon])

/-- Witness for C8 at the seeded store. -/
theorem remove_employee_unassigns_equipment_witness :
    retInv demoStore ∧ findEmployee demoStore 1 = some empA ∧
    eqA ∈ demoStore.equipments ∧ eqA.employee_id = some 1 ∧
    (∃ s2, remove_employee demoStore 1 = some s2 ∧
      (∀ emp2 ∈ s2.employees, emp2.id ≠ 1) ∧
      eqA.is_retired = false ∧
      { eqA with employee_id := none } ∈ s2.equipments ∧
      s2.equipments.length = demoStore.equipments.length ∧
      (∀ e2 ∈ s2.equipments, e2.employee_id ≠ some 1)) :=
  ⟨by decide, by decide, by decide, by decide,
    remove_employee_unassigns_equipment demoStore 1 empA eqA (by decide) (by decide)
      (by decide) (by decide)⟩

theorem storeInv_of_equipments_eq (s s2 : Store) (h : s2.equipments = s.equipments)
    (hs : storeInv s) : storeInv s2 := by
  unfold storeInv at hs ⊢
  rw [h]
  exact hs

theorem retInv_of_equipments_eq (s s2 : Store) (h : s2.equipments = s.equipments)
    (hs : retInv s) : retInv s2 := by
  unfold retInv at hs ⊢
  rw [h]
  exact hs

theorem addEmployeeStep_equipments (s : Store) (nm code : String) (newId : Nat) :
    (addEmployeeStep s nm code newId).equipments = s.equipments := by
  unfold addEmployeeStep add_employee
  by_cases h1 : nm = "" ∨ code = ""
  · simp [h1]
  · by_cases h2 : (s.employees.any fun emp => emp.employee_code == code) = true
    · simp [h1, h2]
    · simp [h1, h2]

theorem raiseIssueStep_equipments (s : Store) (eqId : Nat) (desc : String)
    (raisedBy : Option Nat) (now newId : Nat) :
    (raiseIssueStep s eqId desc raisedBy now newId).equipments = s.equipments := by
  unfold raiseIssueStep raise_issue
  cases hf : findEquipment s eqId with
  | none => rfl
  | some e =>
    by_cases h1 : e.is_retired = true
    · simp [h1]
    · by_cases h2 : desc = ""
      · simp [h1, h2]
      · simp [h1, h2]

theorem deleteIssueStep_equipments (s : Store) (issueId : Nat) :
    (deleteIssueStep s issueId).equipments = s.equipments := by
  unfold deleteIssueStep delete_issue
  cases hf : findIssue s issueId with
  | none => rfl
  | some _ => rfl

theorem storeInv_addEquipmentStep (s : Store) (hs : storeInv s) (nm : String)
    (expiry : Int) (newId : Nat) : storeInv (addEquipmentStep s nm expiry newId) := by
  unfold addEquipmentStep
  cases hae : add_equipment s nm expiry newId with
  | error _ => exact hs
  | ok s2 =>
    unfold add_equipment at hae
    split at hae
    · simp at hae
    · injection hae with hae
      subst hae
      intro e he
      rcases List.mem_append.1 he with h1 | h1
      · exact hs e h1
      · rw [List.mem_singleton] at h1
        subst h1
        rfl

theorem storeInv_assignStep (s : Store) (hs : storeInv s) (eqId empId : Nat) :
    storeInv (assignStep s eqId empId) := by
  unfold assignStep assign_equipment
  cases hf : findEquipment s eqId with
  | none => exact hs
  | some e =>
    by_cases hr : e.is_retired = true
    · simp only [if_pos hr]
      exact hs
    · simp only [if_neg hr]
      intro e2 he2
      obtain ⟨x, hx, rfl⟩ := List.mem_map.1 he2
      by_cases hxk : (x.id == eqId) = true
      · simp only [if_pos hxk]
        exact hs x hx
      · simp only [if_neg hxk]
        exact hs x hx

theorem storeInv_resolveStep (s : Store) (hs : storeInv s) (issueId now : Nat) :
    storeInv (resolveStep s issueId now) := by
  unfold resolveStep
  cases hf : findIssue s issueId with
  | none =>
    have h0 : resolve_issue s issueId now = none := by
      simp only [resolve_issue, hf]
    rw [h0]
    exact hs
  | some issue =>
    cases hro : issue.is_resolved with
    | false =>
      rw [resolve_issue_open_eq s issueId now issue hf hro]
      intro e2 he2
      obtain ⟨x, hx, rfl⟩ := List.mem_map.1 he2
      by_cases hxk : (x.id == issue.equipment_id) = true
      · simp only [if_pos hxk]
        rfl
      · simp only [if_neg hxk]
        exact hs x hx
    | true =>
      rw [resolve_issue_resolved_eq s issueId now issue hf hro]
      intro e2 he2
      obtain ⟨x, hx, rfl⟩ := List.mem_map.1 he2
      by_cases hxk : (x.id == issue.equipment_id) = true
      · simp only [if_pos hxk]
        rfl
      · simp only [if_neg hxk]
        exact hs x hx

theorem storeInv_removeEmployeeStep (s : Store) (hs : storeInv s) (empId : Nat) :
    storeInv (removeEmployeeStep s empId) := by
  unfold removeEmployeeStep remove_employee
  cases hf : findEmployee s empId with
  | none => exact hs
  | some _ =>
    intro e2 he2
    obtain ⟨x, hx, rfl⟩ := List.mem_map.1 he2
    by_cases hxk : (x.employee_id == some empId) = true
    · simp only [if_pos hxk]
      exact hs x hx
    · simp only [if_neg hxk]
      exact hs x hx

theorem retInv_addEquipmentStep (s : Store) (h : retInv s) (nm : String)
    (expiry : Int) (newId : Nat) : retInv (addEquipmentStep s nm expiry newId) := by
  unfold addEquipmentStep
  cases hae : add_equipment s nm expiry newId with
  | error _ => exact h
  | ok s2 =>
    unfold add_equipment at hae
    split at hae
    · simp at hae
    · injection hae with hae
      subst hae
      intro e he
      rcases List.mem_append.1 he with h1 | h1
      · exact h e h1
      · rw [List.mem_singleton] at h1
        subst h1
        intro hcon
        simp at hcon

theorem retInv_assignStep (s : Store) (h : retInv s) (hnd : equipIdsNodup s)
    (eqId empId : Nat) : retInv (assignStep s eqId empId) := by
  unfold assignStep assign_equipment
  cases hf : findEquipment s eqId with
  | none => exact h
  | some e =>
    by_cases hr : e.is_retired = true
    · simp only [if_pos hr]
      exact h
    · simp only [if_neg hr]
      have hem : e ∈ s.equipments := List.mem_of_find?_eq_some hf
      have hf2 : s.equipments.find? (fun x => x.id == eqId) = some e := hf
      have hbe : (e.id == eqId) = true := by simpa using List.find?_some hf2
      have hnd2 : (s.equipments.map Equipment.id).Nodup := hnd
      intro e2 he2
      obtain ⟨x, hx, rfl⟩ := List.mem_map.1 he2
      by_cases hxk : (x.id == eqId) = true
      · have hxe : x = e := by
          refine List.inj_on_of_nodup_map hnd2 hx hem ?_
          have hid1 : x.id = eqId := by simpa using hxk
          have hid2 : e.id = eqId := by simpa using hbe
          simpa [hid2] using hid1
        simp only [if_pos hxk]
        intro hcon
        simp only at hcon
        rw [hxe] at hcon
        exact absurd hcon hr
      · simp only [if_neg hxk]
        exact h x hx

theorem retInv_resolveStep (s : Store) (h : retInv s) (issueId now : Nat) :
    retInv (resolveStep s issueId now) := by
  unfold resolveStep
  cases hf : findIssue s issueId with
  | none =>
    have h0 : resolve_issue s issueId now = none := by
      simp only [resolve_issue, hf]
    rw [h0]
    exact h
  | some issue =>
    cases hro : issue.is_resolved with
    | false =>
      rw [resolve_issue_open_eq s issueId now issue hf hro]
      intro e2 he2
      obtain ⟨x, hx, rfl⟩ := List.mem_map.1 he2
      by_cases hxk : (x.id == issue.equipment_id) = true
      · simp only [if_pos hxk]
        intro _
        rfl
      · simp only [if_neg hxk]
        exact h x hx
    | true =>
      rw [resolve_issue_resolved_eq s issueId now issue hf hro]
      intro e2 he2
      obtain ⟨x, hx, rfl⟩ := List.mem_map.1 he2
      by_cases hxk : (x.id == issue.equipment_id) = true
      · simp only [if_pos hxk]
        intro hcon
        simp at hcon
      · simp only [if_neg hxk]
        exact h x hx

theorem retInv_removeEmployeeStep (s : Store) (h : retInv s) (empId : Nat) :
    retInv (removeEmployeeStep s empId) := by
  unfold removeEmployeeStep remove_employee
  cases hf : findEmployee s empId with
  | none => exact h
  | some _ =>
    intro e2 he2
    obtain ⟨x, hx, rfl⟩ := List.mem_map.1 he2
    by_cases hxk : (x.employee_id == some empId) = true
    · simp only [if_pos hxk]
      intro _
      rfl
    · simp only [if_neg hxk]
      exact h x hx

/-- C3: the retirement flag agrees with the retirement timestamp after every
mutating operation on equipment state — equipment creation, assignment,
issue resolve-toggle, issue deletion and employee deletion — whenever it
held before. -/
theorem mutations_preserve_retired_stamp (s : Store) (hs : storeInv s)
    (nm : String) (expiry : Int) (newId eqId empId issueId now empId2 : Nat) :
    storeInv (addEquipmentStep s nm expiry newId) ∧
    storeInv (assignStep s eqId empId) ∧
    storeInv (resolveStep s issueId now) ∧
    storeInv (deleteIssueStep s issueId) ∧
    storeInv (removeEmployeeStep s empId2) :=
  ⟨storeInv_addEquipmentStep s hs nm expiry newId,
   storeInv_assignStep s hs eqId empId,
   storeInv_resolveStep s hs issueId now,
   storeInv_of_equipments_eq s _ (deleteIssueStep_equipments s issueId) hs,
   storeInv_removeEmployeeStep s hs empId2⟩

/-- Witness for C3 at the seeded store. -/
theorem mutations_preserve_retired_stamp_witness :
    storeInv demoStore ∧
    (storeInv (addEquipmentStep demoStore "Gloves" 40 2) ∧
     storeInv (assignStep demoStore 1 1) ∧
     storeInv (resolveStep demoStore 1 100) ∧
     storeInv (deleteIssueStep demoStore 1) ∧
     storeInv (removeEmployeeStep demoStore 1)) :=
  ⟨by decide,
    mutations_preserve_retired_stamp demoStore (by decide) "Gloves" 40 2 1 1 1 100 1⟩

/-- C10: every request handler preserves the invariant that a retired item
carries no assignment: retiring clears the assignment in the same step, the
assign handler refuses retired items, and no other handler writes an
assignment onto a retired item (equipment ids are primary-key unique). -/
theorem ops_preserve_retired_unassigned (s : Store) (h : retInv s)
    (hnd : equipIdsNodup s) (nm code desc : String) (expiry : Int)
    (newId eqId empId issueId now empId2 newId2 : Nat) (raisedBy : Option Nat) :
    retInv (addEmployeeStep s nm code newId) ∧
    retInv (removeEmployeeStep s empId2) ∧
    retInv (addEquipmentStep s nm expiry newId) ∧
    retInv (assignStep s eqId empId) ∧
    retInv (raiseIssueStep s eqId desc raisedBy now newId2) ∧
    retInv (resolveStep s issueId now) ∧
    retInv (deleteIssueStep s issueId) :=
  ⟨retInv_of_equipments_eq s _ (addEmployeeStep_equipments s nm code newId) h,
   retInv_removeEmployeeStep s h empId2,
   retInv_addEquipmentStep s h nm expiry newId,
   retInv_assignStep s h hnd eqId empId,
   retInv_of_equipments_eq s _ (raiseIssueStep_equipments s eqId desc raisedBy now newId2) h,
   retInv_resolveStep s h issueId now,
   retInv_of_equipments_eq s _ (deleteIssueStep_equipments s issueId) h⟩

/-- Witness for C10 at the seeded store. -/
theorem ops_preserve_retired_unassigned_witness :
    retInv demoStore ∧ equipIdsNodup demoStore ∧
    (retInv (addEmployeeStep demoStore "Dana" "E2000" 7) ∧
     retInv (removeEmployeeStep demoStore 1) ∧
     retInv (addEquipmentStep demoStore "Dana" 40 7) ∧
     retInv (assignStep demoStore 1 1) ∧
     retInv (raiseIssueStep demoStore 1 "torn" (some 1) 100 2) ∧
     retInv (resolveStep demoStore 1 100) ∧
     retInv (deleteIssueStep demoStore 1)) :=
  ⟨by decide, by decide,
    ops_preserve_retired_unassigned demoStore (by decide) (by decide)
      "Dana" "E2000" "torn" 40 7 1 1 1 100 1 2 (some 1)⟩

/-- C9: resolving and then reopening an open issue whose equipment was
assigned returns the issue to open with resolved_on cleared and the
equipment to active with retired_on cleared, but the equipment ends
unassigned — the prior assignment is not restored, so the double toggle is
not the identity on the full state. -/
theorem double_toggle_loses_assignment (s : Store) (issueId : Nat) (issue : Issue)
    (e : Equipment) (empId now1 now2 : Nat)
    (hi : findIssue s issueId = some issue)
    (hopen : issue.is_resolved = false)
    (he : e ∈ s.equipments) (hid : e.id = issue.equipment_id)
    (hemp : e.employee_id = some empId) :
    findIssue (resolveStep (resolveStep s issueId now1) issueId now2) issueId =
      some { issue with is_resolved := false, resolved_on := none } ∧
    { e with employee_id := none, is_retired := false, retired_on := none }
      ∈ (resolveStep (resolveStep s issueId now1) issueId now2).equipments ∧
    (∀ e2 ∈ (resolveStep (resolveStep s issueId now1) issueId now2).equipments,
      e2.id = issue.equipment_id → e2.employee_id = none) ∧
    (∀ e2 ∈ (resolveStep (resolveStep s issueId now1) issueId now2).equipments,
      e2.id = issue.equipment_id → e2.employee_id ≠ e.employee_id) := by
  have hi2 : s.issues.find? (fun i => i.id == issueId) = some issue := hi
  have hbeq : (issue.id == issueId) = true := by simpa using List.find?_some hi2
  have h1 := resolve_issue_open_eq s issueId now1 issue hi hopen
  have hS1 : resolveStep s issueId now1 =
      { s with
        issues := s.issues.map (fun i => if i.id == issueId then
          { issue with is_resolved := true, resolved_on := some now1 } else i),
        equipments := s.equipments.map (fun e2 => if e2.id == issue.equipment_id then
          { e2 with employee_id := none, is_retired := true, retired_on := some now1 }
          else e2) } := by
    unfold resolveStep
    rw [h1]
    rfl
  rw [hS1]
  have hfi1l : (s.issues.map (fun i => if i.id == issueId then
      { issue with is_resolved := true, resolved_on := some now1 } else i)).find?
        (fun i => i.id == issueId) =
      some { issue with is_resolved := true, resolved_on := some now1 } := by
    have := find_map_update (fun i => i.id == issueId)
      (fun i => if i.id == issueId then
        { issue with is_resolved := true, resolved_on := some now1 } else i)
      s.issues issue hi2
      (fun x hx => by simp [hx, hbeq])
      (fun x hx => by simp [hx])
    simpa [hbeq] using this
  have hfi1 : findIssue
      { s with
        issues := s.issues.map (fun i => if i.id == issueId then
          { issue with is_resolved := true, resolved_on := some now1 } else i),
        equipments := s.equipments.map (fun e2 => if e2.id == issue.equipment_id then
          { e2 with employee_id := none, is_retired := true, retired_on := some now1 }
          else e2) } issueId =
      some { issue with is_resolved := true, resolved_on := some now1 } := hfi1l
  have h2 := resolve_issue_resolved_eq _ issueId now2
    { issue with is_resolved := true, resolved_on := some now1 } hfi1 rfl
  have hS2 : resolveStep
      { s with
        issues := s.issues.map (fun i => if i.id == issueId then
          { issue with is_resolved := true, resolved_on := some now1 } else i),
        equipments := s.equipments.map (fun e2 => if e2.id == issue.equipment_id then
          { e2 with employee_id := none, is_retired := true, retired_on := some now1 }
          else e2) } issueId now2 =
      { s with
        issues := (s.issues.map (fun i => if i.id == issueId then
            { issue with is_resolved := true, resolved_on := some now1 } else i)).map
          (fun i => if i.id == issueId then
            { issue with is_resolved := false, resolved_on := none } else i),
        equipments := (s.equipments.map (fun e2 => if e2.id == issue.equipment_id then
            { e2 with employee_id := none, is_retired := true, retired_on := some now1 }
            else e2)).map
          (fun e2 => if e2.id == issue.equipment_id then
            { e2 with is_retired := false, retired_on := none } else e2) } := by
    unfold resolveStep
    rw [h2]
    rfl
  rw [hS2]
  have hall : ∀ e2 ∈ (s.equipments.map (fun e2 => if e2.id == issue.equipment_id then
      { e2 with employee_id := none, is_retired := true, retired_on := some now1 }
      else e2)).map
        (fun e2 => if e2.id == issue.equipment_id then
          { e2 with is_retired := false, retired_on := none } else e2),
      e2.id = issue.equipment_id → e2.employee_id = none := by
    intro e2 hm hide2
    simp only [List.mem_map] at hm
    obtain ⟨x, ⟨y, hy, rfl⟩, rfl⟩ := hm
    by_cases hyk : (y.id == issue.equipment_id) = true
    · simp [hyk]
    · simp only [if_neg hyk] at hide2 ⊢
      exact absurd (by simp [hide2]) hyk
  refine ⟨?_, ?_, hall, ?_⟩
  · unfold findIssue
    have := find_map_update (fun i => i.id == issueId)
      (fun i => if i.id == issueId then
        { issue with is_resolved := false, resolved_on := none } else i)
      (s.issues.map (fun i => if i.id == issueId then
        { issue with is_resolved := true, resolved_on := some now1 } else i))
      { issue with is_resolved := true, resolved_on := some now1 } hfi1l
      (fun x hx => by simp [hx, hbeq])
      (fun x hx => by simp [hx])
    simpa [hbeq] using this
  · have m1 := List.mem_map_of_mem
      (f := fun e2 => if e2.id == issue.equipment_id then
        { e2 with employee_id := none, is_retired := true, retired_on := some now1 }
        else e2) he
    have m2 := List.mem_map_of_mem
      (f := fun e2 => if e2.id == issue.equipment_id then
        { e2 with is_retired := false, retired_on := none } else e2) m1
    simpa [hid] using m2
  · intro e2 hm hide2
    rw [hall e2 hm hide2, hemp]
    simp

/-- Witness for C9 at the seeded store. -/
theorem double_toggle_loses_assignment_witness :
    findIssue demoStore 1 = some issueA ∧ issueA.is_resolved = false ∧
    eqA ∈ demoStore.equipments ∧ eqA.id = issueA.equipment_id ∧
    eqA.employee_id = some 1 ∧
    (findIssue (resolveStep (resolveStep demoStore 1 100) 1 200) 1 =
      some { issueA with is_resolved := false, resolved_on := none } ∧
    { eqA with employee_id := none, is_retired := false, retired_on := none }
      ∈ (resolveStep (resolveStep demoStore 1 100) 1 200).equipments ∧
    (∀ e2 ∈ (resolveStep (resolveStep demoStore 1 100) 1 200).equipments,
      e2.id = issueA.equipment_id → e2.employee_id = none) ∧
    (∀ e2 ∈ (resolveStep (resolveStep demoStore 1 100) 1 200).equipments,
      e2.id = issueA.equipment_id → e2.employee_id ≠ eqA.employee_id)) :=
  ⟨by decide, by decide, by decide, by decide, by decide,
    double_toggle_loses_assignment demoStore 1 issueA eqA 1 100 200 (by decide)
      (by decide) (by decide) (by decide) (by decide)⟩
